import Mathlib

/-!
# Verification of the infra-buddy context / execution-plan core

Shallow embedding of the three source modules

* `infra_buddy/utility/helper_functions.py`
* `infra_buddy/context/service_definition.py`
* `infra_buddy/context/deploy_ctx.py`

Python dictionaries are modelled as association lists where a newer
binding is consed to the front (so lookup finds the most recent write),
Python values that may be either `int` or `str` are modelled by `PyVal`,
and fallible Python code (statements that can raise) is modelled in
`Except Err`.
-/

/-- Python values that flow through the deploy context: the code stores and
compares both strings and integers (e.g. `TASK_CPU` vs the integer keys of
`_valid_fargate_resources`). -/
inductive PyVal where
  | int (n : Int)
  | str (s : String)
deriving DecidableEq, Repr

/-- The exceptions the embedded code can raise.  `invalidAllocation` carries
both offending values, mirroring
`print_utility.error(f'... {cpu} CPU {memory} Memory', raise_exception=True)`;
`invalidMemory` mirrors the invalid-memory message of
`transform_fargate_memory`. -/
inductive Err where
  | typeError
  | attributeError
  | keyError
  | valueError
  | templateNotFound
  | invalidAllocation (cpu : Int) (memory : Option String)
  | invalidMemory (memory : String)
deriving DecidableEq, Repr

/-- Lookup `d.get(k)` / `d[k]`-style lookup: the most recent binding wins. -/
def dget (d : List (String × String)) (k : String) : Option String :=
  match d with
  | [] => none
  | (k', v) :: rest => if k' = k then some v else dget rest k

/-- Assignment `d[k] = v`: record a new binding (it shadows any older one). -/
def dset (d : List (String × String)) (k v : String) : List (String × String) :=
  (k, v) :: d

/-- Update `d.update(o)`: write every binding of `o`, in order. -/
def dupdate (d o : List (String × String)) : List (String × String) :=
  o.foldl (fun acc kv => dset acc kv.1 kv.2) d

/-- Lookup in a `PyVal` dict. -/
def fget (d : List (String × PyVal)) (k : String) : Option PyVal :=
  match d with
  | [] => none
  | (k', v) :: rest => if k' = k then some v else fget rest k

/-- Python `str(value)` for the values the fargate helpers produce. -/
def pyStr : PyVal → String
  | .int n => toString n
  | .str s => s

/-- Decimal digits to a natural number (helper for Python `int(str)`). -/
def digitsToNat : List Char → Nat → Option Nat
  | [], acc => some acc
  | c :: rest, acc =>
    if c.isDigit then digitsToNat rest (acc * 10 + (c.toNat - 48)) else none

/-- Parse a Python integer literal: optional sign, then decimal digits. -/
def strToInt (s : String) : Option Int :=
  match s.data with
  | [] => none
  | '-' :: rest =>
    if rest.isEmpty then none else (digitsToNat rest 0).map (fun n => -(n : Int))
  | l => (digitsToNat l 0).map (fun n => (n : Int))

/-- Python `int(value)`: integers pass through, decimal strings are parsed,
anything else raises `ValueError`. -/
def pyInt : PyVal → Except Err Int
  | .int n => .ok n
  | .str s =>
    match strToInt s with
    | some n => .ok n
    | none => .error .valueError

/-- Python `<` on strings: lexicographic comparison of code points, a proper
prefix comparing smaller. -/
def charListLt : List Char → List Char → Bool
  | [], [] => false
  | [], _ :: _ => true
  | _ :: _, [] => false
  | a :: as, b :: bs =>
    if a.val < b.val then true else if b.val < a.val then false else charListLt as bs

/-! ## helper_functions.py : fargate resource tables and transforms -/

/-- Table `_valid_fargate_resources` of `helper_functions.py`: cpu value to the list
of valid memory strings (`[f"{i * 1024}" for i in range(lo, hi)]`). -/
def _valid_fargate_resources : List (Int × List String) :=
  [(256, ["512", "1024", "2048"]),
   (512, (List.range' 1 4).map (fun i => toString (i * 1024))),
   (1024, (List.range' 2 7).map (fun i => toString (i * 1024))),
   (2048, (List.range' 4 13).map (fun i => toString (i * 1024))),
   (4096, (List.range' 8 23).map (fun i => toString (i * 1024)))]

/-- Row lookup `_valid_fargate_resources[cpu]`. -/
def lookupResources (cpu : Int) : Option (List String) :=
  match _valid_fargate_resources.find? (fun p => p.1 = cpu) with
  | some p => some p.2
  | none => none

/-- Set `_valid_fargate_memories`: every memory string appearing in some row of
the table (a Python set; only membership is ever used). -/
def _valid_fargate_memories : List String :=
  (_valid_fargate_resources.map Prod.snd).flatten

/-- Function `_get_valid_fargate_memory` of `helper_functions.py`.  The source returns
the strings `'512'` / `'1024'` for the two small branches and an `int`
otherwise; `int(math.ceil(v/1024.0)) * 1024` is the integer
`((v + 1023) / 1024) * 1024` on the relevant range `v ≥ 1024`. -/
def _get_valid_fargate_memory (v : Int) : PyVal :=
  if v ≤ 512 then .str "512"
  else if v < 1024 then .str "1024"
  else
    let memory : Int := ((v + 1023) / 1024) * 1024
    if memory > 30720 then .int 30720 else .int memory

/-- Function `_get_valid_fargate_cpu` of `helper_functions.py`. -/
def _get_valid_fargate_cpu (v : Int) : Int :=
  if v ≤ 256 then 256
  else if v ≤ 512 then 512
  else if v ≤ 1024 then 1024
  else if v ≤ 2048 then 2048
  else if v ≤ 4096 then 4096
  else 4096

/-- The shared tail of `_validate_fargate_resource_allocation`:
`memory_possibilities = _valid_fargate_resources[cpu]` followed by the
membership check that raises naming both values. -/
def _validate_pair (cpu : Int) (memory : Option String) : Except Err Unit :=
  match lookupResources cpu with
  | none => .error .keyError
  | some possibilities =>
    match memory with
    | some m =>
      if m ∈ possibilities then .ok () else .error (.invalidAllocation cpu (some m))
    | none => .error (.invalidAllocation cpu none)

/-- Function `_validate_fargate_resource_allocation` of `helper_functions.py`.  When
the supplied side is `None` the counterpart is discovered from the context
(`TASK_CPU` / `TASK_SOFT_MEMORY`); if the discovered value is not a valid
fargate value the whole validation is skipped (`return`), otherwise the pair
must be in the table. -/
def _validate_fargate_resource_allocation (cpu : Option Int) (memory : Option String)
    (deploy_ctx : List (String × PyVal)) : Except Err Unit :=
  match cpu with
  | none =>
    match fget deploy_ctx "TASK_CPU" with
    | some (.int discovered) =>
      if (lookupResources discovered).isSome then _validate_pair discovered memory
      else .ok ()
    | _ => .ok ()
  | some c =>
    match memory with
    | none =>
      match fget deploy_ctx "TASK_SOFT_MEMORY" with
      | some (.str discovered) =>
        if discovered ∈ _valid_fargate_memories then _validate_pair c (some discovered)
        else .ok ()
      | _ => .ok ()
    | some m => _validate_pair c (some m)

/-- Predicate `_using_fargate`: `deploy_ctx.get('USE_FARGATE', 'false') == 'true'`. -/
def _using_fargate (deploy_ctx : List (String × PyVal)) : Bool :=
  ((fget deploy_ctx "USE_FARGATE").getD (.str "false")) = .str "true"

/-- Function `transform_fargate_cpu` of `helper_functions.py`.  Returns `none`
(Python `None`, the implicit return) when fargate is not in use. -/
def transform_fargate_cpu (deploy_ctx : List (String × PyVal)) (v : Int) :
    Except Err (Option Int) :=
  if _using_fargate deploy_ctx then do
    let cpu := _get_valid_fargate_cpu v
    _validate_fargate_resource_allocation (some cpu) none deploy_ctx
    pure (some cpu)
  else pure none

/-- Function `transform_fargate_memory` of `helper_functions.py`. -/
def transform_fargate_memory (deploy_ctx : List (String × PyVal)) (v : PyVal) :
    Except Err (Option String) :=
  if _using_fargate deploy_ctx then
    match v with
    | .str s =>
      if s ∈ _valid_fargate_memories then do
        _validate_fargate_resource_allocation none (some s) deploy_ctx
        pure (some s)
      else .error (.invalidMemory s)
    | .int n => do
      let memory := pyStr (_get_valid_fargate_memory n)
      _validate_fargate_resource_allocation none (some memory) deploy_ctx
      pure (some memory)
  else pure none

/-! ## helper_functions.py : rule priority -/

/-- One load-balancer listener rule as returned by `describe_rules`: only its
`Priority` field is consulted. -/
structure Rule where
  Priority : PyVal
deriving DecidableEq, Repr

/-- The sort key of `_get_max_priority`:
`lambda v: (isinstance(v['Priority'], str), v['Priority'])`. -/
def ruleKey (r : Rule) : Bool × PyVal :=
  match r.Priority with
  | .str s => (true, .str s)
  | .int n => (false, .int n)

/-- Strict comparison on sort keys, following Python tuple comparison:
the boolean first (`False < True`), then the value; the boolean encodes the
type so the value comparison is always between two ints or two strings. -/
def keyLt (a b : Bool × PyVal) : Bool :=
  (!a.1 && b.1) ||
  (a.1 == b.1 &&
    match a.2, b.2 with
    | .int m, .int n => decide (m < n)
    | .str s, .str t => charListLt s.data t.data
    | _, _ => false)

/-- Stable insertion into a descending list: `a` is placed before the first
element whose key is `≤` its own, which reproduces Python's stable
`sorted(..., reverse=True)`. -/
def insertDesc (a : Rule) : List Rule → List Rule
  | [] => [a]
  | b :: l => if !keyLt (ruleKey a) (ruleKey b) then a :: b :: l else b :: insertDesc a l

/-- Python `sorted(rules, key=..., reverse=True)`. -/
def sortRulesDesc : List Rule → List Rule
  | [] => []
  | a :: l => insertDesc a (sortRulesDesc l)

/-- The scan inside `_get_max_priority`: return `int(priority)` of the first
rule whose priority is not the literal `"default"`; `none` when the loop
falls off the end (Python returns `None`). -/
def firstNonDefault : List Rule → Except Err (Option Int)
  | [] => .ok none
  | r :: rest =>
    if r.Priority = .str "default" then firstNonDefault rest
    else
      match pyInt r.Priority with
      | .ok n => .ok (some n)
      | .error e => .error e

/-- Function `_get_max_priority` of `helper_functions.py`. -/
def _get_max_priority (rules : List Rule) : Except Err (Option Int) :=
  firstNonDefault (sortRulesDesc rules)

/-- Function `calculate_rule_priority` of `helper_functions.py`.  The external
collaborators are inputs: whether the target stack exists, its stored
`RulePriority` parameter, the cluster's `ListenerARN` export (absent exports
make `rules = None`), and what `describe_rules` returns for that listener.
`int(None)` — the caller applying `int` to a `None` result of
`_get_max_priority` — raises `TypeError`. -/
def calculate_rule_priority (stack_exists : Bool) (stored_rule_priority : String)
    (listener_arn : Option String) (described_rules : List Rule) : Except Err String :=
  if stack_exists then .ok stored_rule_priority
  else
    let rules : Option (List Rule) :=
      match listener_arn with
      | some _ => some described_rules
      | none => none
    match rules with
    | none => .ok (toString (30 + 1))
    | some rs =>
      if rs.length = 0 then .ok (toString (30 + 1))
      else if rs.length = 1 && ((rs.head?.map Rule.Priority) == some (.str "default")) then
        .ok (toString (30 + 1))
      else
        match _get_max_priority rs with
        | .error e => .error e
        | .ok none => .error .typeError
        | .ok (some m) => .ok (toString (m + 1))

/-! ## deploy_ctx.py : the variable table and `str.format`-style expansion -/

/-- A parsed piece of a `str.format` template: literal text or a `{NAME}`
placeholder. -/
inductive Seg where
  | lit (s : String)
  | var (n : String)
deriving DecidableEq, Repr

/-- Split a template into literal chunks and `{NAME}` placeholders (fuel is
the character count; every step consumes at least one character).  The
templates of `env_variables` use no brace escapes, so a `\x7b` always opens a
placeholder and must be closed. -/
def parseSegsF : Nat → List Char → Option (List Seg)
  | _, [] => some []
  | 0, _ => none
  | fuel + 1, '{' :: rest =>
    let name := rest.takeWhile (fun c => c ≠ '}')
    match rest.drop name.length with
    | '}' :: rest2 => (parseSegsF fuel rest2).map (fun segs => .var ⟨name⟩ :: segs)
    | _ => none
  | fuel + 1, c :: rest =>
    let lit := (c :: rest).takeWhile (fun ch => ch ≠ '{')
    (parseSegsF fuel ((c :: rest).drop lit.length)).map (fun segs => .lit ⟨lit⟩ :: segs)

/-- Parse a whole template string. -/
def parseTemplate (t : String) : Option (List Seg) :=
  parseSegsF t.data.length t.data

/-- Render parsed segments against a lookup; a placeholder whose name the
lookup cannot resolve is a Python `KeyError` (`none`). -/
def renderSegs (get : String → Option String) : List Seg → Option String
  | [] => some ""
  | .lit s :: rest => (renderSegs get rest).map (fun r => s ++ r)
  | .var n :: rest => (get n).bind (fun v => (renderSegs get rest).map (fun r => v ++ r))

/-- Python `template.format(**vars)` for the placeholder-only templates used by
`deploy_ctx.py`. -/
def pyFormat (t : String) (get : String → Option String) : Option String :=
  (parseTemplate t).bind (renderSegs get)

/-- The module-level `env_variables` `OrderedDict` of `deploy_ctx.py`, in
declaration order. -/
def env_variables : List (String × String) :=
  [("VPCAPP", "{VPCAPP}"),
   ("DEPLOY_DATE", "{DEPLOY_DATE}"),
   ("STACK_NAME", "{ENVIRONMENT}-{APPLICATION}-{ROLE}"),
   ("EnvName", "{STACK_NAME}"),
   ("ECS_SERVICE_STACK_NAME", "{STACK_NAME}"),
   ("VPC_STACK_NAME", "{ENVIRONMENT}-{VPCAPP}-vpc"),
   ("CF_BUCKET_NAME", "{ENVIRONMENT}-{VPCAPP}-cloudformation-deploy-resources"),
   ("CF_DEPLOY_RESOURCE_PATH", "{STACK_NAME}/{DEPLOY_DATE}"),
   ("CF_BUCKET_URL", "https://s3-{REGION}.amazonaws.com/{CF_BUCKET_NAME}"),
   ("CLUSTER_STACK_NAME", "{ENVIRONMENT}-{APPLICATION}-cluster"),
   ("RESOURCE_STACK_NAME", "{ENVIRONMENT}-{APPLICATION}-{ROLE}-resources"),
   ("ECS_SERVICE_RESOURCE_STACK_NAME", "{RESOURCE_STACK_NAME}"),
   ("KEY_NAME", "{ENVIRONMENT}-{APPLICATION}"),
   ("CHANGE_SET_NAME", "{STACK_NAME}-deploy-cloudformation-change-set")]

/-- Python `str.lower()` on one character (ASCII fragment, structural so that it
evaluates definitionally). -/
def pyCharLower (c : Char) : Char :=
  if 'A' ≤ c && c ≤ 'Z' then Char.ofNat (c.toNat + 32) else c

/-- Python `str.lower()`. -/
def pyLower (s : String) : String := ⟨s.data.map pyCharLower⟩

/-- The `VPCAPP` derivation of `_initialize_environment_variables`:
`application if '-' not in application else application[:application.find('-')]`. -/
def vpcapp (application : String) : String :=
  if application.data.contains '-' then ⟨application.data.takeWhile (fun c => c ≠ '-')⟩
  else application

/-- The `for variable, template in env_variables` loop: evaluate each template
against the current dict and store the result under the variable's name. -/
def applyEnvVars (ctx : List (String × String)) : List (String × String) → Option (List (String × String))
  | [] => some ctx
  | (name, template) :: rest =>
    (pyFormat template (dget ctx)).bind (fun v => applyEnvVars (dset ctx name v) rest)

/-- Method `DeployContext._initialize_environment_variables` (the source spells the
loop with Python-2 `iteritems`): derive `VPCAPP`, stamp `DEPLOY_DATE` (an
opaque input here), then evaluate the `env_variables` table in order. -/
def _init_environment_variables (ctx : List (String × String)) (deploy_date : String) :
    Option (List (String × String)) :=
  match dget ctx "APPLICATION" with
  | none => none
  | some application =>
    let ctx := dset ctx "VPCAPP" (vpcapp application)
    let ctx := dset ctx "DEPLOY_DATE" deploy_date
    applyEnvVars ctx env_variables

/-- Classmethod `DeployContext.create_deploy_context` with `defaults=None`: the
constructor stores the lower-cased environment, `_initalize_defaults` merges
the process environment, then application and role are stored and the
variable table is evaluated. -/
def create_deploy_context (application role environment : String)
    (process_environ : List (String × String)) (deploy_date : String) :
    Option (List (String × String)) :=
  let ctx := dset [] "ENVIRONMENT" (pyLower environment)
  let ctx := dupdate ctx process_environ
  let ctx := dset ctx "APPLICATION" application
  let ctx := dset ctx "ROLE" role
  _init_environment_variables ctx deploy_date

/-- Method `DeployContext.generate_modification_stack_name`:
`"{ENVIRONMENT}-{APPLICATION}-{ROLE}-{mod_name}".format(mod_name=mod_name, **self)`. -/
def generate_modification_stack_name (ctx : List (String × String)) (mod_name : String) :
    Option String :=
  pyFormat "{ENVIRONMENT}-{APPLICATION}-{ROLE}-{mod_name}"
    (fun n => if n = "mod_name" then some mod_name else dget ctx n)

/-! ## deploy_ctx.py : `_expandvars` -/

/-- Class `\w` of the `_expandvars` regex (ASCII fragment). -/
def isWordChar (c : Char) : Bool := c.isAlphanum || c = '_'

/-- The replacement function of `_expandvars`:
`self.get(m.group(2) or m.group(1), m.group(0) if default is None else default)`. -/
def resolveVar (get : String → Option String) (dflt : Option String)
    (name whole : String) : String :=
  match get name with
  | some v => v
  | none =>
    match dflt with
    | some d => d
    | none => whole

/-- One left-to-right pass of `re.sub` with pattern
`\$(\w+|\x7b[^}]*\x7d)` (fuel is the character count).  `$NAME` tries the
word-character alternative first; `$\x7b...\x7d` matches a braced name; a `$`
followed by neither is literal text. -/
def expandAux (get : String → Option String) (dflt : Option String) :
    Nat → List Char → List Char
  | _, [] => []
  | 0, cs => cs
  | fuel + 1, c :: rest =>
    if c = '$' then
      let name := rest.takeWhile isWordChar
      if name.isEmpty then
        match rest with
        | c2 :: rest2 =>
          if c2 = '{' then
            let inner := rest2.takeWhile (fun ch => ch ≠ '}')
            match rest2.drop inner.length with
            | c3 :: rest3 =>
              if c3 = '}' then
                let lookup_name : String := if inner.isEmpty then "\x7b\x7d" else ⟨inner⟩
                let whole : String := ⟨'$' :: '{' :: (inner ++ ['}'])⟩
                (resolveVar get dflt lookup_name whole).data ++ expandAux get dflt fuel rest3
              else '$' :: expandAux get dflt fuel rest
            | [] => '$' :: expandAux get dflt fuel rest
          else '$' :: expandAux get dflt fuel rest
        | [] => '$' :: expandAux get dflt fuel rest
      else
        (resolveVar get dflt ⟨name⟩ ⟨'$' :: name⟩).data ++
          expandAux get dflt fuel (rest.drop name.length)
    else c :: expandAux get dflt fuel rest

/-- Method `DeployContext._expandvars` (with the default `skip_escaped=False`). -/
def _expandvars (get : String → Option String) (dflt : Option String) (path : String) :
    String :=
  ⟨expandAux get dflt path.data.length path.data⟩

/-! ## service_definition.py : definition parsing and the execution plan -/

/-- The fields of `service.json` that `ServiceDefinition.__init__` reads.
Top-level objects other than the base deployment parameters (such as
`"<env>-deployment-parameters"`) are kept keyed by their JSON name in
`extra_objects`; parameter values are opaque strings here. -/
structure ServiceJson where
  application : String
  role : String
  service_type : String
  registry_url : Option String
  deployment_parameters : List (String × String)
  extra_objects : List (String × List (String × String))
  service_modifications : Option (List String)

/-- Find a top-level JSON object by key (JSON object keys are unique). -/
def lookupObj (objs : List (String × List (String × String))) (k : String) :
    Option (List (String × String)) :=
  match objs.find? (fun p => p.1 = k) with
  | some p => some p.2
  | none => none

/-- The state `ServiceDefinition.__init__` leaves behind. -/
structure ServiceDefinitionS where
  artifact_directory : String
  application : String
  role : String
  service_type : String
  docker_registry : String
  deployment_parameters : List (String × String)
  service_modifications : List String

/-- Constructor `ServiceDefinition.__init__` after schema validation: copy the scalar
fields, then `self.deployment_parameters.update(...)` with the
`"{environment}-deployment-parameters"` object when that key is present, and
default `service-modifications` to the empty list. -/
def ServiceDefinition_init (artifact_directory : String) (j : ServiceJson)
    (environment : String) : ServiceDefinitionS :=
  let params := j.deployment_parameters
  let env_key := environment ++ "-deployment-parameters"
  let params :=
    match lookupObj j.extra_objects env_key with
    | some o => dupdate params o
    | none => params
  { artifact_directory := artifact_directory
    application := j.application
    role := j.role
    service_type := j.service_type
    docker_registry := j.registry_url.getD ""
    deployment_parameters := params
    service_modifications := j.service_modifications.getD [] }

/-- One `CloudFormationDeploy` in the plan: the target stack name and the
template it deploys (identified by a number; templates are opaque here). -/
structure Step where
  stack_name : String
  template_id : Nat
deriving DecidableEq, Repr

/-- A resolved template: its identity plus its monitor artifact, when it
declares one.  `has_monitor_definition()` is `monitor.isSome` and the monitor
artifact's own `generate_execution_plan(deploy_ctx)` is the carried list of
steps. -/
structure Template where
  tid : Nat
  monitor : Option (List Step)

/-- The template-manager collaborator: `get_known_service` and
`get_known_service_modification` raise when the template cannot be resolved
(`Except`), `get_resource_service` returns an optional template and its
absence is not an error. -/
structure TemplateManager where
  get_known_service : String → Except Err Template
  get_resource_service : String → Option Template
  get_known_service_modification : String → String → Except Err Template

/-- The `for mod in self.service_modifications` loop of
`generate_execution_plan`: a deploy step per modification, immediately
followed by the modification template's monitor sub-plan when present. -/
def modPlan (tm : TemplateManager) (service_type : String)
    (ctx : List (String × String)) : List String → Except Err (List Step)
  | [] => .ok []
  | mod :: rest => do
    let template ← tm.get_known_service_modification service_type mod
    let name ←
      match generate_modification_stack_name ctx mod with
      | some s => Except.ok s
      | none => Except.error Err.keyError
    let tail ← modPlan tm service_type ctx rest
    pure ([Step.mk name template.tid] ++
      (match template.monitor with | some ms => ms | none => []) ++ tail)

/-- Method `ServiceDefinition.generate_execution_plan`: main stack first, then the
main template's monitor sub-plan, then the optional resource stack, then the
modification steps.  `deploy_ctx.stack_name` / `resource_stack_name` are the
attributes mirroring the context entries of the same (upper-case) name; an
uninitialized context raises. -/
def generate_execution_plan (sd : ServiceDefinitionS) (tm : TemplateManager)
    (ctx : List (String × String)) : Except Err (List Step) := do
  let template ← tm.get_known_service sd.service_type
  let stack_name ←
    match dget ctx "STACK_NAME" with
    | some s => Except.ok s
    | none => Except.error Err.attributeError
  let ret := [Step.mk stack_name template.tid]
  let ret := ret ++ (match template.monitor with | some ms => ms | none => [])
  let ret ←
    match tm.get_resource_service sd.artifact_directory with
    | some resource_deploy => do
      let resource_name ←
        match dget ctx "RESOURCE_STACK_NAME" with
        | some s => Except.ok s
        | none => Except.error Err.attributeError
      pure (ret ++ [Step.mk resource_name resource_deploy.tid])
    | none => pure ret
  let rest ← modPlan tm sd.service_type ctx sd.service_modifications
  pure (ret ++ rest)

/-! ## deploy_ctx.py : the broken `get_execution_plan` entry point -/

/-- Required positional parameters of
`ServiceDefinition.generate_execution_plan` after `self`:
`template_manager` and `deploy_ctx`. -/
def generate_execution_plan_required_args : Nat := 2

/-- Positional arguments `DeployContext.get_execution_plan` passes:
only `self.template_manager`. -/
def get_execution_plan_passed_args : Nat := 1

/-- Method `DeployContext.get_execution_plan`, with Python's call discipline made
explicit: a call supplying fewer positional arguments than the callee's
required parameters raises `TypeError` before the callee's body runs. -/
def get_execution_plan (sd : ServiceDefinitionS) (tm : TemplateManager)
    (ctx : List (String × String)) : Except Err (List Step) :=
  if get_execution_plan_passed_args < generate_execution_plan_required_args then
    .error .typeError
  else generate_execution_plan sd tm ctx

/-! ## Fargate claim support -/

/-- The cpu tiers named by the spec. -/
def fargateCpuTiers : List Int := [256, 512, 1024, 2048, 4096]

/-- Modelled from the spec's words (memory normalization): at most 512 gives
`"512"`, below 1024 gives `"1024"`, otherwise the value is rounded up to the
nearest multiple of 1024 and clamped at the ceiling 30720. -/
def specFargateMemory (v : Int) : String :=
  if v ≤ 512 then "512"
  else if v < 1024 then "1024"
  else toString (min (((v + 1023) / 1024) * 1024) 30720)

/-- The modification part of the plan as the claim words it: one step per
declared modification, in declaration order, with the modification stack
name, each immediately followed by its template's monitor sub-plan when the
template declares monitoring. -/
def claimModSteps (tmpl : String → Template) (msn : String → String) :
    List String → List Step
  | [] => []
  | mod :: rest =>
    Step.mk (msn mod) (tmpl mod).tid ::
      ((match (tmpl mod).monitor with | some ms => ms | none => []) ++
        claimModSteps tmpl msn rest)

/-- A concrete template manager for the three-step instance: main template 0,
resource template 1, modification template 2, none with monitors. -/
def sampleTemplateManager : TemplateManager :=
  ⟨fun _ => .ok ⟨0, none⟩, fun _ => some ⟨1, none⟩, fun _ _ => .ok ⟨2, none⟩⟩

/-- A service definition with one modification `"cache"`. -/
def sampleServiceDefinition : ServiceDefinitionS :=
  ⟨"dir", "foo", "api", "ecs", "", [], ["cache"]⟩

/-- An initialized context for environment prod, application foo, role api. -/
def sampleCtx : List (String × String) :=
  [("STACK_NAME", "prod-foo-api"), ("RESOURCE_STACK_NAME", "prod-foo-api-resources"),
   ("ENVIRONMENT", "prod"), ("APPLICATION", "foo"), ("ROLE", "api")]

/-! ## Concrete evaluations -/

example : _expandvars (fun _ => none) none "hello ${NAME}" = "hello ${NAME}" := rfl
example : _expandvars (fun _ => none) (some "world") "hello ${NAME}" = "hello world" := rfl
example : _expandvars (fun n => if n = "NAME" then some "bob" else none) none "hello ${NAME}" = "hello bob" := rfl
example : _expandvars (fun n => if n = "NAME" then some "bob" else none) none "hi $NAME!" = "hi bob!" := rfl
example : (create_deploy_context "foo" "api" "prod" [("REGION", "us-west-2")] "D").bind (fun c => dget c "STACK_NAME") = some "prod-foo-api" := rfl
example : (create_deploy_context "foo" "api" "prod" [("REGION", "us-west-2")] "D").bind (fun c => dget c "RESOURCE_STACK_NAME") = some "prod-foo-api-resources" := rfl
example : (create_deploy_context "foo-bar" "api" "prod" [("REGION", "us-west-2")] "D").bind (fun c => dget c "VPCAPP") = some "foo" := rfl
example : (create_deploy_context "foobar" "api" "prod" [("REGION", "us-west-2")] "D").bind (fun c => dget c "VPCAPP") = some "foobar" := rfl
example : (create_deploy_context "foo" "api" "prod" [("REGION", "us-west-2")] "D").bind (fun c => generate_modification_stack_name c "cache") = some "prod-foo-api-cache" := rfl
example : calculate_rule_priority false "" (some "arn") [⟨.str "9"⟩, ⟨.str "45"⟩] = .ok "10" := rfl
example : calculate_rule_priority true "12" none [] = .ok "12" := rfl
example : calculate_rule_priority false "" none [] = .ok "31" := rfl
example : calculate_rule_priority false "" (some "arn") [⟨.str "default"⟩] = .ok "31" := rfl
example : calculate_rule_priority false "" (some "arn") [⟨.str "45"⟩] = .ok "46" := rfl
example : calculate_rule_priority false "" (some "arn") [⟨.str "default"⟩, ⟨.str "default"⟩] = .error .typeError := rfl
example : transform_fargate_cpu [("USE_FARGATE", .str "true")] 200 = .ok (some 256) := rfl
example : transform_fargate_cpu [("USE_FARGATE", .str "true"), ("TASK_SOFT_MEMORY", .str "4096")] 200 = .error (.invalidAllocation 256 (some "4096")) := rfl
example : transform_fargate_memory [("USE_FARGATE", .str "true")] (.int 2050) = .ok (some "3072") := rfl
example : transform_fargate_memory [("USE_FARGATE", .str "true")] (.int 40000) = .ok (some "30720") := rfl
example : transform_fargate_memory [("USE_FARGATE", .str "true")] (.str "2050") = .error (.invalidMemory "2050") := rfl
example : transform_fargate_memory [] (.int 2050) = .ok none := rfl

/-! ## Supporting lemmas -/

theorem mem_of_mem_insertDesc {x a : Rule} {l : List Rule} :
    x ∈ insertDesc a l → x = a ∨ x ∈ l := by
  induction l with
  | nil => simp [insertDesc]
  | cons b t ih =>
    simp only [insertDesc]
    split
    · intro h
      rcases List.mem_cons.mp h with h1 | h2
      · exact Or.inl h1
      · exact Or.inr h2
    · intro h
      rcases List.mem_cons.mp h with h1 | h2
      · exact Or.inr (List.mem_cons.mpr (Or.inl h1))
      · rcases ih h2 with h3 | h4
        · exact Or.inl h3
        · exact Or.inr (List.mem_cons.mpr (Or.inr h4))

theorem mem_of_mem_sortRulesDesc {x : Rule} {l : List Rule} :
    x ∈ sortRulesDesc l → x ∈ l := by
  induction l with
  | nil => simp [sortRulesDesc]
  | cons a t ih =>
    intro h
    rcases mem_of_mem_insertDesc h with h1 | h2
    · exact List.mem_cons.mpr (Or.inl h1)
    · exact List.mem_cons.mpr (Or.inr (ih h2))

theorem firstNonDefault_of_all_default {l : List Rule}
    (h : ∀ r ∈ l, r.Priority = PyVal.str "default") :
    firstNonDefault l = .ok none := by
  induction l with
  | nil => rfl
  | cons r t ih =>
    have hr : r.Priority = PyVal.str "default" := h r (List.mem_cons_self r t)
    simp only [firstNonDefault, if_pos hr]
    exact ih (fun x hx => h x (List.mem_cons.mpr (Or.inr hx)))

theorem get_max_priority_of_all_default {l : List Rule}
    (h : ∀ r ∈ l, r.Priority = PyVal.str "default") :
    _get_max_priority l = .ok none :=
  firstNonDefault_of_all_default
    (fun r hr => h r (mem_of_mem_sortRulesDesc hr))

/-! ## Claim theorems -/

/-- C2: every call to `DeployContext.get_execution_plan` fails with an arity
`TypeError` — the call passes one positional argument where
`ServiceDefinition.generate_execution_plan` requires two — so it can never
return a plan. -/
theorem claim_C2_get_execution_plan_always_raises :
    ∀ (sd : ServiceDefinitionS) (tm : TemplateManager) (ctx : List (String × String)),
      get_execution_plan sd tm ctx = .error .typeError ∧
      ∀ plan, get_execution_plan sd tm ctx ≠ .ok plan := by
  intro sd tm ctx
  refine ⟨rfl, fun plan h => ?_⟩
  rw [show get_execution_plan sd tm ctx = .error .typeError from rfl] at h
  exact Except.noConfusion h

/-- C4: evaluation of `calculate_rule_priority`.  The stored-`RulePriority`
reuse and the three base cases behave as the claim states, but with two
non-"default" string priorities `"9"` and `"45"` the code returns `"10"` —
`_get_max_priority` orders string priorities lexicographically, so `"9"`
beats `"45"` — where the claimed numeric maximum gives `"46"`. -/
theorem claim_C4_rule_priority_evaluation :
    calculate_rule_priority false "" (some "arn") [⟨.str "9"⟩, ⟨.str "45"⟩] = .ok "10" ∧
    ("10" : String) ≠ "46" ∧
    calculate_rule_priority true "12" (some "arn") [⟨.str "9"⟩, ⟨.str "45"⟩] = .ok "12" ∧
    calculate_rule_priority false "" none [] = .ok "31" ∧
    calculate_rule_priority false "" (some "arn") [] = .ok "31" ∧
    calculate_rule_priority false "" (some "arn") [⟨.str "default"⟩] = .ok "31" ∧
    calculate_rule_priority false "" (some "arn") [⟨.str "45"⟩] = .ok "46" :=
  ⟨rfl, by decide, rfl, rfl, rfl, rfl, rfl⟩

/-- C10: with no existing stack, a resolved listener, and two or more rules
all of whose priorities are the literal `"default"`, `_get_max_priority`
skips every rule and returns `None`, and the caller's `int(None)` raises an
unhandled `TypeError` instead of returning a priority. -/
theorem claim_C10_all_default_rules_type_error
    (stored arn : String) (rules : List Rule)
    (hlen : 2 ≤ rules.length)
    (hdef : ∀ r ∈ rules, r.Priority = PyVal.str "default") :
    calculate_rule_priority false stored (some arn) rules = .error .typeError := by
  match rules, hlen with
  | a :: b :: t, _ =>
    have hmax : _get_max_priority (a :: b :: t) = .ok none :=
      get_max_priority_of_all_default hdef
    simp only [calculate_rule_priority, hmax]
    norm_num

/-- Witness for C10: two explicit all-default rules. -/
theorem claim_C10_witness :
    2 ≤ ([⟨.str "default"⟩, ⟨.str "default"⟩] : List Rule).length ∧
    (∀ r ∈ ([⟨.str "default"⟩, ⟨.str "default"⟩] : List Rule),
      r.Priority = PyVal.str "default") ∧
    calculate_rule_priority false "" (some "arn")
      [⟨.str "default"⟩, ⟨.str "default"⟩] = .error .typeError :=
  ⟨by decide, by decide,
    claim_C10_all_default_rules_type_error "" "arn" _ (by decide) (by decide)⟩

theorem pyStr_get_valid_fargate_memory (v : Int) :
    pyStr (_get_valid_fargate_memory v) = specFargateMemory v := by
  unfold _get_valid_fargate_memory specFargateMemory
  split
  · rfl
  · split
    · rfl
    · by_cases hm : ((v + 1023) / 1024) * 1024 > 30720
      · rw [if_pos hm]
        simp only [pyStr]
        rw [min_eq_right (by omega)]
      · rw [if_neg hm]
        simp only [pyStr]
        rw [min_eq_left (by omega)]

theorem get_valid_fargate_cpu_spec (v : Int) :
    _get_valid_fargate_cpu v ∈ fargateCpuTiers ∧
    (v ≤ 4096 → v ≤ _get_valid_fargate_cpu v ∧
      ∀ t ∈ fargateCpuTiers, v ≤ t → _get_valid_fargate_cpu v ≤ t) ∧
    (4096 < v → _get_valid_fargate_cpu v = 4096) := by
  unfold _get_valid_fargate_cpu fargateCpuTiers
  split_ifs with h1 h2 h3 h4 h5 <;>
    refine ⟨by simp, fun hv => ⟨by omega, fun t ht hvt => ?_⟩, fun hv => by omega⟩ <;>
    · simp only [List.mem_cons, List.mem_singleton] at ht
      rcases ht with rfl | rfl | rfl | rfl | rfl | h
      · omega
      · omega
      · omega
      · omega
      · omega
      · simp at h

/-- Behavior of `transform_fargate_cpu` when the cross-validation is skipped because the
context carries no `TASK_SOFT_MEMORY`. -/
theorem transform_fargate_cpu_skip (ctx : List (String × PyVal)) (v : Int)
    (h1 : _using_fargate ctx = true)
    (h2 : fget ctx "TASK_SOFT_MEMORY" = none) :
    transform_fargate_cpu ctx v = .ok (some (_get_valid_fargate_cpu v)) := by
  unfold transform_fargate_cpu _validate_fargate_resource_allocation
  rw [h1, h2]
  rfl

/-- Behavior of `transform_fargate_memory` on a numeric request when the cross-validation
is skipped because the context carries no `TASK_CPU`. -/
theorem transform_fargate_memory_skip (ctx : List (String × PyVal)) (v : Int)
    (h1 : _using_fargate ctx = true)
    (h2 : fget ctx "TASK_CPU" = none) :
    transform_fargate_memory ctx (.int v) =
      .ok (some (pyStr (_get_valid_fargate_memory v))) := by
  unfold transform_fargate_memory _validate_fargate_resource_allocation
  rw [h1, h2]
  rfl

/-- C6: with `USE_FARGATE` set to `"true"` (and no `TASK_SOFT_MEMORY` to
cross-validate against), `transform_fargate_cpu` returns the smallest tier of
{256,512,1024,2048,4096} at least the request, clamped to 4096; with fargate
off it returns absent; 200→256, 600→1024, 4096→4096, 9000→4096. -/
theorem claim_C6_fargate_cpu_normalization :
    (∀ (ctx : List (String × PyVal)) (v : Int),
      _using_fargate ctx = true → fget ctx "TASK_SOFT_MEMORY" = none →
      ∃ c, transform_fargate_cpu ctx v = .ok (some c) ∧ c ∈ fargateCpuTiers ∧
        (v ≤ 4096 → v ≤ c ∧ ∀ t ∈ fargateCpuTiers, v ≤ t → c ≤ t) ∧
        (4096 < v → c = 4096)) ∧
    (∀ (ctx : List (String × PyVal)) (v : Int),
      _using_fargate ctx = false → transform_fargate_cpu ctx v = .ok none) ∧
    transform_fargate_cpu [("USE_FARGATE", PyVal.str "true")] 200 = .ok (some 256) ∧
    transform_fargate_cpu [("USE_FARGATE", PyVal.str "true")] 600 = .ok (some 1024) ∧
    transform_fargate_cpu [("USE_FARGATE", PyVal.str "true")] 4096 = .ok (some 4096) ∧
    transform_fargate_cpu [("USE_FARGATE", PyVal.str "true")] 9000 = .ok (some 4096) := by
  refine ⟨?_, ?_, rfl, rfl, rfl, rfl⟩
  · intro ctx v h1 h2
    obtain ⟨hmem, hle, hclamp⟩ := get_valid_fargate_cpu_spec v
    exact ⟨_, transform_fargate_cpu_skip ctx v h1 h2, hmem, hle, hclamp⟩
  · intro ctx v h
    unfold transform_fargate_cpu
    rw [h]
    rfl

/-- Witness for C6: the general statement instantiated at `v = 600` in a
fargate context with no `TASK_SOFT_MEMORY`. -/
theorem claim_C6_witness :
    _using_fargate [("USE_FARGATE", PyVal.str "true")] = true ∧
    fget [("USE_FARGATE", PyVal.str "true")] "TASK_SOFT_MEMORY" = none ∧
    ∃ c, transform_fargate_cpu [("USE_FARGATE", PyVal.str "true")] 600 = .ok (some c) ∧
      c ∈ fargateCpuTiers ∧
      ((600 : Int) ≤ 4096 → (600 : Int) ≤ c ∧ ∀ t ∈ fargateCpuTiers, 600 ≤ t → c ≤ t) ∧
      ((4096 : Int) < 600 → c = 4096) :=
  ⟨rfl, rfl, claim_C6_fargate_cpu_normalization.1 [("USE_FARGATE", PyVal.str "true")] 600 rfl rfl⟩

/-- C5: with `USE_FARGATE` set to `"true"` (and no `TASK_CPU` to
cross-validate against), `transform_fargate_memory` maps a numeric request to
the spec's normalization (≤512 → "512", <1024 → "1024", otherwise the next
multiple of 1024 clamped at 30720); a string request in the valid-memory set
passes through unchanged, one outside it is a fatal error; with fargate off
the transform returns absent. -/
theorem claim_C5_fargate_memory_normalization :
    (∀ (ctx : List (String × PyVal)) (v : Int),
      _using_fargate ctx = true → fget ctx "TASK_CPU" = none →
      transform_fargate_memory ctx (.int v) = .ok (some (specFargateMemory v))) ∧
    (∀ (ctx : List (String × PyVal)) (s : String),
      _using_fargate ctx = true → fget ctx "TASK_CPU" = none →
      s ∈ _valid_fargate_memories →
      transform_fargate_memory ctx (.str s) = .ok (some s)) ∧
    (∀ (ctx : List (String × PyVal)) (s : String),
      _using_fargate ctx = true → s ∉ _valid_fargate_memories →
      transform_fargate_memory ctx (.str s) = .error (.invalidMemory s)) ∧
    (∀ (ctx : List (String × PyVal)) (v : PyVal),
      _using_fargate ctx = false → transform_fargate_memory ctx v = .ok none) ∧
    transform_fargate_memory [("USE_FARGATE", PyVal.str "true")] (.int 400) = .ok (some "512") ∧
    transform_fargate_memory [("USE_FARGATE", PyVal.str "true")] (.int 900) = .ok (some "1024") ∧
    transform_fargate_memory [("USE_FARGATE", PyVal.str "true")] (.int 2050) = .ok (some "3072") ∧
    transform_fargate_memory [("USE_FARGATE", PyVal.str "true")] (.int 40000) = .ok (some "30720") := by
  refine ⟨?_, ?_, ?_, ?_, rfl, rfl, rfl, rfl⟩
  · intro ctx v h1 h2
    rw [transform_fargate_memory_skip ctx v h1 h2, pyStr_get_valid_fargate_memory]
  · intro ctx s h1 h2 h3
    simp only [transform_fargate_memory, _validate_fargate_resource_allocation, h1, h2, h3,
      if_true, ite_true]
    rfl
  · intro ctx s h1 h2
    simp only [transform_fargate_memory, h1, h2, if_true, ite_true, ite_false,
      if_false]
  · intro ctx v h
    unfold transform_fargate_memory
    rw [h]
    rfl

/-- Witness for C5: the general numeric statement instantiated at 2050 in a
fargate context with no `TASK_CPU`, and the string pass-through at "3072". -/
theorem claim_C5_witness :
    _using_fargate [("USE_FARGATE", PyVal.str "true")] = true ∧
    fget [("USE_FARGATE", PyVal.str "true")] "TASK_CPU" = none ∧
    ("3072" ∈ _valid_fargate_memories) ∧
    transform_fargate_memory [("USE_FARGATE", PyVal.str "true")] (.int 2050) =
      .ok (some (specFargateMemory 2050)) ∧
    transform_fargate_memory [("USE_FARGATE", PyVal.str "true")] (.str "3072") =
      .ok (some "3072") :=
  ⟨rfl, rfl, by decide,
    claim_C5_fargate_memory_normalization.1 [("USE_FARGATE", PyVal.str "true")] 2050 rfl rfl,
    claim_C5_fargate_memory_normalization.2.1 [("USE_FARGATE", PyVal.str "true")] "3072" rfl rfl
      (by decide)⟩

/-- C3 counterexample: the claim's requirement that the counterpart "must
already be present in the context ... and the resulting pair must appear in
the compatibility table; any mismatch is a fatal error" fails three ways, all
silently succeeding: an absent `TASK_SOFT_MEMORY`; a present
`TASK_SOFT_MEMORY` of `"999"` that is not a valid fargate memory; and a
`TASK_CPU` stored as the string `"256"`, which never matches the int-keyed
table. -/
theorem claim_C3_counterexample :
    transform_fargate_cpu [("USE_FARGATE", PyVal.str "true")] 200 = .ok (some 256) ∧
    fget [("USE_FARGATE", PyVal.str "true")] "TASK_SOFT_MEMORY" = none ∧
    "999" ∉ _valid_fargate_memories ∧
    transform_fargate_cpu
      [("USE_FARGATE", PyVal.str "true"), ("TASK_SOFT_MEMORY", PyVal.str "999")] 200 =
      .ok (some 256) ∧
    transform_fargate_memory
      [("USE_FARGATE", PyVal.str "true"), ("TASK_CPU", PyVal.str "256")] (.int 400) =
      .ok (some "512") :=
  ⟨rfl, rfl, by decide, rfl, rfl⟩

/-- C3 amended: after normalizing one side, the cross-validation only applies
when the counterpart is present in the context AND is itself a valid fargate
value (a memory string in the valid-memory set, resp. an integer cpu that is
a key of the compatibility table); then an incompatible pair is a fatal error
naming both offending values and a compatible pair passes; a counterpart that
is absent, or present but not a valid fargate value, is silently skipped —
on either side.  In particular normalized cpu 256 with context memory "4096"
fails naming 256 and "4096". -/
theorem claim_C3_amended_cross_validation :
    (∀ (ctx : List (String × PyVal)) (v : Int) (m : String)
      (poss : List String),
      _using_fargate ctx = true →
      fget ctx "TASK_SOFT_MEMORY" = some (PyVal.str m) →
      m ∈ _valid_fargate_memories →
      lookupResources (_get_valid_fargate_cpu v) = some poss →
      (m ∉ poss →
        transform_fargate_cpu ctx v =
          .error (.invalidAllocation (_get_valid_fargate_cpu v) (some m))) ∧
      (m ∈ poss →
        transform_fargate_cpu ctx v = .ok (some (_get_valid_fargate_cpu v)))) ∧
    (∀ (ctx : List (String × PyVal)) (v : Int),
      _using_fargate ctx = true → fget ctx "TASK_SOFT_MEMORY" = none →
      transform_fargate_cpu ctx v = .ok (some (_get_valid_fargate_cpu v))) ∧
    (∀ (ctx : List (String × PyVal)) (v : Int) (m : String),
      _using_fargate ctx = true →
      fget ctx "TASK_SOFT_MEMORY" = some (PyVal.str m) →
      m ∉ _valid_fargate_memories →
      transform_fargate_cpu ctx v = .ok (some (_get_valid_fargate_cpu v))) ∧
    (∀ (ctx : List (String × PyVal)) (v : Int) (k : Int),
      _using_fargate ctx = true →
      fget ctx "TASK_SOFT_MEMORY" = some (PyVal.int k) →
      transform_fargate_cpu ctx v = .ok (some (_get_valid_fargate_cpu v))) ∧
    (∀ (ctx : List (String × PyVal)) (v : Int),
      _using_fargate ctx = true → fget ctx "TASK_CPU" = none →
      transform_fargate_memory ctx (.int v) =
        .ok (some (pyStr (_get_valid_fargate_memory v)))) ∧
    (∀ (ctx : List (String × PyVal)) (v : Int) (s2 : String),
      _using_fargate ctx = true →
      fget ctx "TASK_CPU" = some (PyVal.str s2) →
      transform_fargate_memory ctx (.int v) =
        .ok (some (pyStr (_get_valid_fargate_memory v)))) ∧
    (∀ (ctx : List (String × PyVal)) (v : Int) (c : Int),
      _using_fargate ctx = true →
      fget ctx "TASK_CPU" = some (PyVal.int c) →
      lookupResources c = none →
      transform_fargate_memory ctx (.int v) =
        .ok (some (pyStr (_get_valid_fargate_memory v)))) ∧
    (∀ (ctx : List (String × PyVal)) (v : Int) (c : Int) (poss : List String),
      _using_fargate ctx = true →
      fget ctx "TASK_CPU" = some (PyVal.int c) →
      lookupResources c = some poss →
      (pyStr (_get_valid_fargate_memory v) ∉ poss →
        transform_fargate_memory ctx (.int v) =
          .error (.invalidAllocation c (some (pyStr (_get_valid_fargate_memory v))))) ∧
      (pyStr (_get_valid_fargate_memory v) ∈ poss →
        transform_fargate_memory ctx (.int v) =
          .ok (some (pyStr (_get_valid_fargate_memory v))))) ∧
    (∀ (ctx : List (String × PyVal)) (s : String) (c : Int) (poss : List String),
      _using_fargate ctx = true →
      s ∈ _valid_fargate_memories →
      fget ctx "TASK_CPU" = some (PyVal.int c) →
      lookupResources c = some poss →
      (s ∉ poss →
        transform_fargate_memory ctx (.str s) =
          .error (.invalidAllocation c (some s))) ∧
      (s ∈ poss →
        transform_fargate_memory ctx (.str s) = .ok (some s))) ∧
    transform_fargate_cpu
      [("USE_FARGATE", PyVal.str "true"), ("TASK_SOFT_MEMORY", PyVal.str "4096")] 200 =
      .error (.invalidAllocation 256 (some "4096")) := by
  refine ⟨?_, ?_, ?_, ?_, ?_, ?_, ?_, ?_, ?_, rfl⟩
  · intro ctx v m poss h1 h2 h3 h4
    constructor
    · intro h5
      simp only [transform_fargate_cpu, _validate_fargate_resource_allocation,
        _validate_pair, h1, h2, h3, h4, h5, if_true, ite_true, ite_false, if_false,
        not_false_iff]
      rfl
    · intro h5
      simp only [transform_fargate_cpu, _validate_fargate_resource_allocation,
        _validate_pair, h1, h2, h3, h4, h5, if_true, ite_true]
      rfl
  · exact transform_fargate_cpu_skip
  · intro ctx v m h1 h2 h3
    simp only [transform_fargate_cpu, _validate_fargate_resource_allocation,
      h1, h2, h3, if_true, ite_true, ite_false, if_false]
    rfl
  · intro ctx v k h1 h2
    simp only [transform_fargate_cpu, _validate_fargate_resource_allocation,
      h1, h2, if_true, ite_true]
    rfl
  · exact transform_fargate_memory_skip
  · intro ctx v s2 h1 h2
    simp only [transform_fargate_memory, _validate_fargate_resource_allocation,
      h1, h2, if_true, ite_true]
    rfl
  · intro ctx v c h1 h2 h3
    simp only [transform_fargate_memory, _validate_fargate_resource_allocation,
      h1, h2, h3, Option.isSome_none, Bool.false_eq_true, ite_false, if_false,
      if_true, ite_true]
    rfl
  · intro ctx v c poss h1 h2 h3
    constructor
    · intro h4
      simp only [transform_fargate_memory, _validate_fargate_resource_allocation,
        _validate_pair, h1, h2, h3, h4, if_true, ite_true, ite_false, if_false,
        Option.isSome_some]
      rfl
    · intro h4
      simp only [transform_fargate_memory, _validate_fargate_resource_allocation,
        _validate_pair, h1, h2, h3, h4, if_true, ite_true, Option.isSome_some]
      rfl
  · intro ctx s c poss h1 h2 h3 h4
    constructor
    · intro h5
      simp only [transform_fargate_memory, _validate_fargate_resource_allocation,
        _validate_pair, h1, h2, h3, h4, h5, if_true, ite_true, ite_false, if_false,
        Option.isSome_some]
      rfl
    · intro h5
      simp only [transform_fargate_memory, _validate_fargate_resource_allocation,
        _validate_pair, h1, h2, h3, h4, h5, if_true, ite_true, Option.isSome_some]
      rfl

/-- Witness for C3's amended theorem: normalized cpu 256 against context
memory "4096" fails (row 256 of the table is ["512", "1024", "2048"]), and
the memory side passes a compatible pair: context cpu 1024 with request 2050,
normalized to "3072", is in row 1024 of the table. -/
theorem claim_C3_amended_witness :
    _using_fargate [("USE_FARGATE", PyVal.str "true"), ("TASK_SOFT_MEMORY", PyVal.str "4096")] = true ∧
    fget [("USE_FARGATE", PyVal.str "true"), ("TASK_SOFT_MEMORY", PyVal.str "4096")]
      "TASK_SOFT_MEMORY" = some (PyVal.str "4096") ∧
    "4096" ∈ _valid_fargate_memories ∧
    lookupResources (_get_valid_fargate_cpu 200) = some ["512", "1024", "2048"] ∧
    "4096" ∉ (["512", "1024", "2048"] : List String) ∧
    transform_fargate_cpu
      [("USE_FARGATE", PyVal.str "true"), ("TASK_SOFT_MEMORY", PyVal.str "4096")] 200 =
      .error (.invalidAllocation (_get_valid_fargate_cpu 200) (some "4096")) ∧
    fget [("USE_FARGATE", PyVal.str "true"), ("TASK_CPU", PyVal.int 1024)]
      "TASK_CPU" = some (PyVal.int 1024) ∧
    lookupResources 1024 =
      some ["2048", "3072", "4096", "5120", "6144", "7168", "8192"] ∧
    pyStr (_get_valid_fargate_memory 2050) ∈
      (["2048", "3072", "4096", "5120", "6144", "7168", "8192"] : List String) ∧
    transform_fargate_memory
      [("USE_FARGATE", PyVal.str "true"), ("TASK_CPU", PyVal.int 1024)] (.int 2050) =
      .ok (some (pyStr (_get_valid_fargate_memory 2050))) :=
  ⟨rfl, rfl, by decide, rfl, by decide,
    (claim_C3_amended_cross_validation.1
      [("USE_FARGATE", PyVal.str "true"), ("TASK_SOFT_MEMORY", PyVal.str "4096")]
      200 "4096" ["512", "1024", "2048"] rfl rfl (by decide) rfl).1 (by decide),
    rfl, rfl, by decide,
    (claim_C3_amended_cross_validation.2.2.2.2.2.2.2.1
      [("USE_FARGATE", PyVal.str "true"), ("TASK_CPU", PyVal.int 1024)]
      2050 1024 ["2048", "3072", "4096", "5120", "6144", "7168", "8192"]
      rfl rfl rfl).2 (by decide)⟩

/-! ## Naming claim support -/

theorem takeWhile_of_not_contains {l : List Char} (h : l.contains '-' = false) :
    l.takeWhile (fun c => c ≠ '-') = l := by
  induction l with
  | nil => rfl
  | cons c t ih =>
    simp only [List.contains_cons, Bool.or_eq_false_iff] at h
    have hc : ¬ c = '-' := fun hh => by simp [hh] at h
    have hp : (fun x => decide (x ≠ '-')) c = true := by simp [hc]
    rw [List.takeWhile_cons, if_pos hp, ih h.2]

/-- Function `vpcapp` is exactly "the application truncated at the first hyphen, the
full name when there is none". -/
theorem vpcapp_eq_takeWhile (a : String) :
    vpcapp a = ⟨a.data.takeWhile (fun c => c ≠ '-')⟩ := by
  unfold vpcapp
  split
  · rfl
  · rename_i h
    have h2 : a.data.contains '-' = false := by simpa using h
    rw [takeWhile_of_not_contains h2]

/-- C7: in an initialized context, `VPCAPP` is the application truncated at
the first hyphen; `STACK_NAME` is `e-a-r`; `EnvName` and
`ECS_SERVICE_STACK_NAME` are pure synonyms of `STACK_NAME`;
`RESOURCE_STACK_NAME` appends `-resources`; and a modification stack name
appends `-m`; with the concrete prod/foo/api instances.  (`REGION` must be
resolvable — here through the process environment — or the variable table
itself fails; the environment is stored lower-cased, hence the hypothesis.) -/
theorem claim_C7_stack_naming (e a r reg d m : String) (he : pyLower e = e) :
    ((create_deploy_context a r e [("REGION", reg)] d).bind (fun c => dget c "VPCAPP") =
      some ⟨a.data.takeWhile (fun c => c ≠ '-')⟩) ∧
    ((create_deploy_context a r e [("REGION", reg)] d).bind (fun c => dget c "STACK_NAME") =
      some (e ++ "-" ++ a ++ "-" ++ r)) ∧
    ((create_deploy_context a r e [("REGION", reg)] d).bind (fun c => dget c "EnvName") =
      (create_deploy_context a r e [("REGION", reg)] d).bind (fun c => dget c "STACK_NAME")) ∧
    ((create_deploy_context a r e [("REGION", reg)] d).bind
        (fun c => dget c "ECS_SERVICE_STACK_NAME") =
      (create_deploy_context a r e [("REGION", reg)] d).bind (fun c => dget c "STACK_NAME")) ∧
    ((create_deploy_context a r e [("REGION", reg)] d).bind
        (fun c => dget c "RESOURCE_STACK_NAME") =
      some (e ++ "-" ++ a ++ "-" ++ r ++ "-resources")) ∧
    ((create_deploy_context a r e [("REGION", reg)] d).bind
        (fun c => generate_modification_stack_name c m) =
      some (e ++ "-" ++ a ++ "-" ++ r ++ "-" ++ m)) ∧
    ((create_deploy_context "foo-bar" "api" "prod" [("REGION", reg)] d).bind
        (fun c => dget c "VPCAPP") = some "foo") ∧
    ((create_deploy_context "foobar" "api" "prod" [("REGION", reg)] d).bind
        (fun c => dget c "VPCAPP") = some "foobar") := by
  refine ⟨?_, ?_, ?_, ?_, ?_, ?_, rfl, rfl⟩
  · rw [show (create_deploy_context a r e [("REGION", reg)] d).bind (fun c => dget c "VPCAPP") =
      some (vpcapp a ++ "") from rfl]
    rw [String.append_empty, vpcapp_eq_takeWhile]
  · rw [show (create_deploy_context a r e [("REGION", reg)] d).bind (fun c => dget c "STACK_NAME") =
      some (pyLower e ++ ("-" ++ (a ++ ("-" ++ (r ++ ""))))) from rfl]
    rw [he]
    simp [String.append_assoc, String.append_empty]
  · rw [show (create_deploy_context a r e [("REGION", reg)] d).bind (fun c => dget c "EnvName") =
      some ((pyLower e ++ ("-" ++ (a ++ ("-" ++ (r ++ ""))))) ++ "") from rfl]
    rw [show (create_deploy_context a r e [("REGION", reg)] d).bind (fun c => dget c "STACK_NAME") =
      some (pyLower e ++ ("-" ++ (a ++ ("-" ++ (r ++ ""))))) from rfl]
    rw [String.append_empty]
  · rw [show (create_deploy_context a r e [("REGION", reg)] d).bind
      (fun c => dget c "ECS_SERVICE_STACK_NAME") =
      some ((pyLower e ++ ("-" ++ (a ++ ("-" ++ (r ++ ""))))) ++ "") from rfl]
    rw [show (create_deploy_context a r e [("REGION", reg)] d).bind (fun c => dget c "STACK_NAME") =
      some (pyLower e ++ ("-" ++ (a ++ ("-" ++ (r ++ ""))))) from rfl]
    rw [String.append_empty]
  · rw [show (create_deploy_context a r e [("REGION", reg)] d).bind
      (fun c => dget c "RESOURCE_STACK_NAME") =
      some (pyLower e ++ ("-" ++ (a ++ ("-" ++ (r ++ ("-resources" ++ "")))))) from rfl]
    rw [he]
    simp [String.append_assoc, String.append_empty]
  · rw [show (create_deploy_context a r e [("REGION", reg)] d).bind
      (fun c => generate_modification_stack_name c m) =
      some (pyLower e ++ ("-" ++ (a ++ ("-" ++ (r ++ ("-" ++ (m ++ ""))))))) from rfl]
    rw [he]
    simp [String.append_assoc, String.append_empty]

/-- Witness for C7: environment "prod", application "foo", role "api",
modification "cache". -/
theorem claim_C7_witness :
    pyLower "prod" = "prod" ∧
    ((create_deploy_context "foo" "api" "prod" [("REGION", "us-west-2")] "D").bind
        (fun c => dget c "STACK_NAME") = some "prod-foo-api") ∧
    ((create_deploy_context "foo" "api" "prod" [("REGION", "us-west-2")] "D").bind
        (fun c => dget c "RESOURCE_STACK_NAME") = some "prod-foo-api-resources") ∧
    ((create_deploy_context "foo" "api" "prod" [("REGION", "us-west-2")] "D").bind
        (fun c => generate_modification_stack_name c "cache") = some "prod-foo-api-cache") := by
  have h := claim_C7_stack_naming "prod" "foo" "api" "us-west-2" "D" "cache" rfl
  exact ⟨rfl, h.2.1, h.2.2.2.2.1, h.2.2.2.2.2.1⟩

/-! ## Dict-merge support for the service definition -/

theorem dupdate_eq_reverse_append (o : List (String × String)) :
    ∀ d, dupdate d o = o.reverse ++ d := by
  induction o with
  | nil => intro d; rfl
  | cons p t ih =>
    intro d
    show dupdate (dset d p.1 p.2) t = (p :: t).reverse ++ d
    rw [ih]
    simp [dset, List.append_assoc]

theorem dget_append (l1 l2 : List (String × String)) (k : String) :
    dget (l1 ++ l2) k = (dget l1 k <|> dget l2 k) := by
  induction l1 with
  | nil => rfl
  | cons p t ih =>
    show (if p.1 = k then some p.2 else dget (t ++ l2) k) =
      ((if p.1 = k then some p.2 else dget t k) <|> dget l2 k)
    by_cases h : p.1 = k
    · rw [if_pos h, if_pos h]
      rfl
    · rw [if_neg h, if_neg h, ih]

theorem dget_eq_none_of_not_mem {o : List (String × String)} {k : String}
    (h : k ∉ o.map Prod.fst) : dget o k = none := by
  induction o with
  | nil => rfl
  | cons p t ih =>
    simp only [List.map_cons, List.mem_cons, not_or] at h
    show (if p.1 = k then some p.2 else dget t k) = none
    rw [if_neg (fun hh : p.1 = k => h.1 hh.symm)]
    exact ih h.2

theorem dget_reverse_of_nodup {o : List (String × String)} (k : String)
    (h : (o.map Prod.fst).Nodup) : dget o.reverse k = dget o k := by
  induction o with
  | nil => rfl
  | cons p t ih =>
    simp only [List.map_cons, List.nodup_cons] at h
    rw [List.reverse_cons, dget_append]
    by_cases hk : p.1 = k
    · have ht : dget t k = none := dget_eq_none_of_not_mem (hk ▸ h.1)
      rw [ih h.2, ht]
      show dget [p] k = dget (p :: t) k
      show (if p.1 = k then some p.2 else none) =
        (if p.1 = k then some p.2 else dget t k)
      rw [if_pos hk, if_pos hk]
    · rw [ih h.2]
      have hp : dget [p] k = none := by
        show (if p.1 = k then some p.2 else none) = none
        rw [if_neg hk]
      rw [hp]
      show (dget t k <|> none) = (if p.1 = k then some p.2 else dget t k)
      rw [if_neg hk]
      cases dget t k <;> rfl

theorem dget_dupdate (d o : List (String × String)) (k : String)
    (h : (o.map Prod.fst).Nodup) :
    dget (dupdate d o) k = (dget o k <|> dget d k) := by
  rw [dupdate_eq_reverse_append, dget_append, dget_reverse_of_nodup k h]

/-- C8: when an `<env>-deployment-parameters` object is present its keys win
key-by-key over the base mapping and base keys without an override are
retained; when absent the base mapping is untouched; `service_modifications`
is the declared list or the empty list when the key is absent. -/
theorem claim_C8_service_definition_parameters :
    (∀ (dir env : String) (j : ServiceJson) (o : List (String × String)) (k : String),
      lookupObj j.extra_objects (env ++ "-deployment-parameters") = some o →
      (o.map Prod.fst).Nodup →
      dget (ServiceDefinition_init dir j env).deployment_parameters k =
        (dget o k <|> dget j.deployment_parameters k)) ∧
    (∀ (dir env : String) (j : ServiceJson),
      lookupObj j.extra_objects (env ++ "-deployment-parameters") = none →
      (ServiceDefinition_init dir j env).deployment_parameters =
        j.deployment_parameters) ∧
    (∀ (dir env : String) (j : ServiceJson) (mods : List String),
      j.service_modifications = some mods →
      (ServiceDefinition_init dir j env).service_modifications = mods) ∧
    (∀ (dir env : String) (j : ServiceJson),
      j.service_modifications = none →
      (ServiceDefinition_init dir j env).service_modifications = []) := by
  refine ⟨?_, ?_, ?_, ?_⟩
  · intro dir env j o k h hnd
    simp only [ServiceDefinition_init, h]
    exact dget_dupdate j.deployment_parameters o k hnd
  · intro dir env j h
    simp [ServiceDefinition_init, h]
  · intro dir env j mods h
    simp [ServiceDefinition_init, h]
  · intro dir env j h
    simp [ServiceDefinition_init, h]

/-- Witness for C8: base `\x7bK: base, M: m\x7d` merged with prod override
`\x7bK: env, N: new\x7d` — the override wins on `K`, `M` is retained, `N` is
added — and modifications `["cache"]` are kept. -/
theorem claim_C8_witness :
    lookupObj [("prod-deployment-parameters", [("K", "env"), ("N", "new")])]
      ("prod" ++ "-deployment-parameters") = some [("K", "env"), ("N", "new")] ∧
    ((([("K", "env"), ("N", "new")] : List (String × String)).map Prod.fst).Nodup) ∧
    dget (ServiceDefinition_init "dir"
        ⟨"app", "role", "type", none, [("K", "base"), ("M", "m")],
          [("prod-deployment-parameters", [("K", "env"), ("N", "new")])],
          some ["cache"]⟩ "prod").deployment_parameters "K" = some "env" ∧
    dget (ServiceDefinition_init "dir"
        ⟨"app", "role", "type", none, [("K", "base"), ("M", "m")],
          [("prod-deployment-parameters", [("K", "env"), ("N", "new")])],
          some ["cache"]⟩ "prod").deployment_parameters "M" = some "m" ∧
    dget (ServiceDefinition_init "dir"
        ⟨"app", "role", "type", none, [("K", "base"), ("M", "m")],
          [("prod-deployment-parameters", [("K", "env"), ("N", "new")])],
          some ["cache"]⟩ "prod").deployment_parameters "N" = some "new" ∧
    (ServiceDefinition_init "dir"
        ⟨"app", "role", "type", none, [("K", "base"), ("M", "m")],
          [("prod-deployment-parameters", [("K", "env"), ("N", "new")])],
          some ["cache"]⟩ "prod").service_modifications = ["cache"] := by
  have h1 := claim_C8_service_definition_parameters.1 "dir" "prod"
    ⟨"app", "role", "type", none, [("K", "base"), ("M", "m")],
      [("prod-deployment-parameters", [("K", "env"), ("N", "new")])], some ["cache"]⟩
    [("K", "env"), ("N", "new")]
  have h2 := claim_C8_service_definition_parameters.2.2.1 "dir" "prod"
    ⟨"app", "role", "type", none, [("K", "base"), ("M", "m")],
      [("prod-deployment-parameters", [("K", "env"), ("N", "new")])], some ["cache"]⟩
    ["cache"] rfl
  exact ⟨rfl, by decide, h1 "K" rfl (by decide), h1 "M" rfl (by decide),
    h1 "N" rfl (by decide), h2⟩

/-- C9: `_expandvars` substitutes a `$NAME` / `$\x7bNAME\x7d` occurrence with
the context's value when `NAME` resolves, leaves it verbatim when unresolved
with no default, and uses the caller's default when one is supplied — for any
lookup and any default — plus the three concrete `"hello ..."` instances. -/
theorem claim_C9_expandvars :
    (∀ (get : String → Option String) (d : Option String),
      _expandvars get d "hello ${NAME}" =
        "hello " ++ (match get "NAME" with
          | some v => v
          | none => d.getD "${NAME}") ∧
      _expandvars get d "hello $NAME" =
        "hello " ++ (match get "NAME" with
          | some v => v
          | none => d.getD "$NAME")) ∧
    _expandvars (fun _ => none) none "hello ${NAME}" = "hello ${NAME}" ∧
    _expandvars (fun _ => none) (some "world") "hello ${NAME}" = "hello world" ∧
    _expandvars (fun n => if n = "NAME" then some "bob" else none) none
      "hello ${NAME}" = "hello bob" := by
  refine ⟨?_, rfl, rfl, rfl⟩
  intro get d
  constructor
  · rw [show _expandvars get d "hello ${NAME}" =
      ⟨'h' :: 'e' :: 'l' :: 'l' :: 'o' :: ' ' ::
        ((resolveVar get d "NAME" "${NAME}").data ++ [])⟩ from rfl]
    rw [List.append_nil]
    rw [show ("hello " ++ (match get "NAME" with
          | some v => v
          | none => d.getD "${NAME}") : String) =
      ⟨'h' :: 'e' :: 'l' :: 'l' :: 'o' :: ' ' ::
        ((match get "NAME" with
          | some v => v
          | none => d.getD "${NAME}" : String).data)⟩ from rfl]
    simp only [resolveVar]
    cases hx : get "NAME" with
    | some v => rfl
    | none => cases d <;> rfl
  · rw [show _expandvars get d "hello $NAME" =
      ⟨'h' :: 'e' :: 'l' :: 'l' :: 'o' :: ' ' ::
        ((resolveVar get d "NAME" "$NAME").data ++ [])⟩ from rfl]
    rw [List.append_nil]
    rw [show ("hello " ++ (match get "NAME" with
          | some v => v
          | none => d.getD "$NAME") : String) =
      ⟨'h' :: 'e' :: 'l' :: 'l' :: 'o' :: ' ' ::
        ((match get "NAME" with
          | some v => v
          | none => d.getD "$NAME" : String).data)⟩ from rfl]
    simp only [resolveVar]
    cases hx : get "NAME" with
    | some v => rfl
    | none => cases d <;> rfl

theorem modPlan_eq_claimModSteps (tm : TemplateManager) (st : String)
    (ctx : List (String × String)) (tmpl : String → Template)
    (msn : String → String) :
    ∀ l : List String,
      (∀ mod ∈ l, tm.get_known_service_modification st mod = .ok (tmpl mod)) →
      (∀ mod ∈ l, generate_modification_stack_name ctx mod = some (msn mod)) →
      modPlan tm st ctx l = .ok (claimModSteps tmpl msn l) := by
  intro l
  induction l with
  | nil => intro _ _; rfl
  | cons mod rest ih =>
    intro h1 h2
    have hm := h1 mod (List.mem_cons_self mod rest)
    have hn := h2 mod (List.mem_cons_self mod rest)
    have hr := ih (fun m hm2 => h1 m (List.mem_cons_of_mem mod hm2))
      (fun m hm2 => h2 m (List.mem_cons_of_mem mod hm2))
    simp only [modPlan, hm, hn, hr]
    rfl

/-- C1: whenever the main template and every declared modification template
resolve, the plan is the main-stack step (stack name `STACK_NAME`), the main
template's monitor sub-plan, the shared-resource step (stack name
`RESOURCE_STACK_NAME`) exactly when the resource template is present (its
absence is not an error), then one step per declared modification in
declaration order named by `generate_modification_stack_name`, each
immediately followed by its monitor sub-plan when declared. -/
theorem claim_C1_execution_plan_order (tm : TemplateManager)
    (ctx : List (String × String)) (sd : ServiceDefinitionS) (T : Template)
    (tmpl : String → Template) (msn : String → String) (sn rn : String)
    (hmain : tm.get_known_service sd.service_type = .ok T)
    (hmods : ∀ mod ∈ sd.service_modifications,
      tm.get_known_service_modification sd.service_type mod = .ok (tmpl mod))
    (hsn : dget ctx "STACK_NAME" = some sn)
    (hrn : dget ctx "RESOURCE_STACK_NAME" = some rn)
    (hmsn : ∀ mod ∈ sd.service_modifications,
      generate_modification_stack_name ctx mod = some (msn mod)) :
    generate_execution_plan sd tm ctx = .ok
      (Step.mk sn T.tid ::
        ((match T.monitor with | some ms => ms | none => []) ++
          (match tm.get_resource_service sd.artifact_directory with
            | some rt => [Step.mk rn rt.tid]
            | none => []) ++
          claimModSteps tmpl msn sd.service_modifications)) := by
  simp only [generate_execution_plan, hmain, hsn, hrn,
    modPlan_eq_claimModSteps tm sd.service_type ctx tmpl msn
      sd.service_modifications hmods hmsn]
  cases hres : tm.get_resource_service sd.artifact_directory with
  | some rt => rfl
  | none =>
    show _ = Except.ok (Step.mk sn T.tid ::
      (((match T.monitor with | some ms => ms | none => []) ++ ([] : List Step)) ++
        claimModSteps tmpl msn sd.service_modifications))
    rw [List.append_nil]
    rfl

/-- Witness for C1: with one modification `"cache"`, a present resource
template, and no monitors, the plan is exactly the three steps
[main, resource, cache-modification] with the correct stack names. -/
theorem claim_C1_witness :
    sampleTemplateManager.get_known_service sampleServiceDefinition.service_type =
      .ok ⟨0, none⟩ ∧
    (∀ mod ∈ sampleServiceDefinition.service_modifications,
      sampleTemplateManager.get_known_service_modification
        sampleServiceDefinition.service_type mod = .ok ⟨2, none⟩) ∧
    dget sampleCtx "STACK_NAME" = some "prod-foo-api" ∧
    dget sampleCtx "RESOURCE_STACK_NAME" = some "prod-foo-api-resources" ∧
    (∀ mod ∈ sampleServiceDefinition.service_modifications,
      generate_modification_stack_name sampleCtx mod = some "prod-foo-api-cache") ∧
    generate_execution_plan sampleServiceDefinition sampleTemplateManager sampleCtx =
      .ok [⟨"prod-foo-api", 0⟩, ⟨"prod-foo-api-resources", 1⟩,
        ⟨"prod-foo-api-cache", 2⟩] := by
  refine ⟨rfl, ?_, rfl, rfl, ?_, ?_⟩
  · intro mod hm
    have h : mod = "cache" := by simpa [sampleServiceDefinition] using hm
    subst h
    rfl
  · intro mod hm
    have h : mod = "cache" := by simpa [sampleServiceDefinition] using hm
    subst h
    rfl
  · have h := claim_C1_execution_plan_order sampleTemplateManager sampleCtx
      sampleServiceDefinition ⟨0, none⟩ (fun _ => ⟨2, none⟩)
      (fun _ => "prod-foo-api-cache") "prod-foo-api" "prod-foo-api-resources"
      rfl (fun mod _ => rfl) rfl rfl
      (fun mod hm => by
        have hc : mod = "cache" := by simpa [sampleServiceDefinition] using hm
        subst hc
        rfl)
    rw [h]
    rfl
